import Mathlib

/-!
Verification of the Rockside wallet SDK API client (src/api.ts) against its
specification.  The TypeScript source is shallowly embedded: pure helpers
become Lean functions, the stateful HTTP client becomes explicit
request/response values, JS numbers holding byte values become Fin 256, and
fallible operations return Option or Except.
-/

set_option maxRecDepth 8192

namespace Rockside

/-- JS Number.prototype.toString(16) for a non-negative integer: lowercase
base-16 digits, "0" for zero.  Used by buf2hex (api.ts:369) and by
relayTransaction for the value field (api.ts:329). -/
def toString16 (n : Nat) : String :=
  String.mk (Nat.toDigits 16 n)

/-- One byte rendered as two lowercase hex digits: embeds the JS expression
("00" + x.toString(16)).slice(-2) from buf2hex (api.ts:369); slice(-2)
keeps the last two characters of the padded string. -/
def byteToHex (x : Nat) : String :=
  let padded := '0' :: '0' :: (toString16 x).data
  String.mk (padded.drop (padded.length - 2))

/-- A binary buffer: a JS ArrayBuffer viewed through Uint8Array, i.e. a list
of bytes, each in 0..255. -/
abbrev ByteBuffer := List (Fin 256)

/-- Embeds buf2hex (api.ts:368-370):
"0x" + Array.prototype.map.call(new Uint8Array(buffer),
x => ("00" + x.toString(16)).slice(-2)).join("") -/
def buf2hex (buffer : ByteBuffer) : String :=
  String.mk ('0' :: 'x' :: (buffer.map fun x => (byteToHex x.val).data).flatten)

/-- The numeric value of one hex digit, case-insensitive, as JS parseInt
with radix 16 accepts; none for a non-digit. -/
def hexDigitVal (c : Char) : Option Nat :=
  if '0' ≤ c ∧ c ≤ '9' then some (c.toNat - '0'.toNat)
  else if 'a' ≤ c ∧ c ≤ 'f' then some (c.toNat - 'a'.toNat + 10)
  else if 'A' ≤ c ∧ c ≤ 'F' then some (c.toNat - 'A'.toNat + 10)
  else none

/-- Accumulates the longest leading run of hex digits, stopping at the first
non-digit, as JS parseInt does. -/
def hexDigitsAcc (acc : Nat) : List Char → Nat
  | [] => acc
  | c :: cs =>
    match hexDigitVal c with
    | some d => hexDigitsAcc (16 * acc + d) cs
    | none => acc

/-- JS parseInt(s, 16) restricted to the inputs hex2buf feeds it, namely
two-character substrings taken beyond position 2 of a hex string: none
models NaN (first character not a hex digit); otherwise the longest leading
run of hex digits is parsed.  Leading whitespace, signs and a literal 0x
radix marker never occur in those substrings and are not modelled. -/
def parseIntHex (s : String) : Option Nat :=
  match s.data with
  | [] => none
  | c :: cs =>
    match hexDigitVal c with
    | some d => some (hexDigitsAcc d cs)
    | none => none

/-- The loop of hex2buf (api.ts:376-378): consume the characters two at a
time; view[i / 2] = parseInt(...) stores into a Uint8Array, which coerces
NaN to 0 and any other number modulo 256. -/
def hexPairsToBytes : List Char → ByteBuffer
  | c1 :: c2 :: rest =>
    (⟨((parseIntHex (String.mk [c1, c2])).getD 0) % 256, by omega⟩ : Fin 256)
      :: hexPairsToBytes rest
  | _ => []

/-- Embeds hex2buf (api.ts:372-380).  s.substring(2) drops the first two
characters; new Uint8Array(noPrefix.length / 2) is a RangeError when the
remaining length is odd (a fractional typed-array length), modelled as
none; otherwise the loop fills the buffer from consecutive two-character
chunks.  No claim depends on the odd-length case. -/
def hex2buf (s : String) : Option ByteBuffer :=
  let rest := s.data.drop 2
  if rest.length % 2 = 1 then none
  else some (hexPairsToBytes rest)

/-- Whether a character is a lowercase hex digit, the only characters
buf2hex may emit after the 0x marker. -/
def isLowerHexDigit (c : Char) : Bool :=
  c.isDigit || ('a' ≤ c && c ≤ 'f')

theorem byteToHex_len : ∀ x : Fin 256, (byteToHex x.val).data.length = 2 := by decide

theorem parse_byteToHex : ∀ x : Fin 256, parseIntHex (byteToHex x.val) = some x.val := by
  decide

theorem hexPairsToBytes_cons (x : Fin 256) (rest : List Char) :
    hexPairsToBytes ((byteToHex x.val).data ++ rest) = x :: hexPairsToBytes rest := by
  obtain ⟨c1, c2, hc⟩ := List.length_eq_two.mp (byteToHex_len x)
  have hmk : String.mk [c1, c2] = byteToHex x.val := by rw [← hc]
  rw [hc]
  show hexPairsToBytes (c1 :: c2 :: rest) = x :: hexPairsToBytes rest
  simp only [hexPairsToBytes, hmk, parse_byteToHex x, Option.getD_some]
  congr 1
  exact Fin.ext (Nat.mod_eq_of_lt x.isLt)

theorem hexPairsToBytes_join (b : ByteBuffer) :
    hexPairsToBytes (b.map fun x => (byteToHex x.val).data).flatten = b := by
  induction b with
  | nil => rfl
  | cons x xs ih =>
    simp only [List.map_cons, List.flatten_cons]
    rw [hexPairsToBytes_cons, ih]

theorem join_hex_length (b : ByteBuffer) :
    ((b.map fun x => (byteToHex x.val).data).flatten).length = 2 * b.length := by
  induction b with
  | nil => rfl
  | cons x xs ih =>
    simp only [List.map_cons, List.flatten_cons, List.length_append, List.length_cons,
      byteToHex_len x, ih]
    omega

theorem hex2buf_buf2hex (b : ByteBuffer) : hex2buf (buf2hex b) = some b := by
  have hdrop : (buf2hex b).data.drop 2 = (b.map fun x => (byteToHex x.val).data).flatten := rfl
  show (if ((buf2hex b).data.drop 2).length % 2 = 1 then none
    else some (hexPairsToBytes ((buf2hex b).data.drop 2))) = some b
  rw [hdrop, if_neg, hexPairsToBytes_join]
  rw [join_hex_length]
  omega

/-- Claim C1: for every byte buffer b, including the empty buffer,
hex2buf (buf2hex b) recovers b exactly; buf2hex of the empty buffer is
"0x" and hex2buf "0x" is the empty buffer. -/
theorem claim_C1 :
    (∀ b : ByteBuffer, hex2buf (buf2hex b) = some b) ∧
    buf2hex [] = "0x" ∧ hex2buf "0x" = some ([] : ByteBuffer) :=
  ⟨hex2buf_buf2hex, rfl, rfl⟩

/-- Claim C5: buf2hex zero-pads every byte to two lowercase hex digits and
adds the 0x marker in front: the single byte 0x00 encodes to "0x00", the
two-byte buffer 0x01 0xFF encodes to "0x01ff", every encoding starts with
the two characters 0x, and every byte contributes exactly two characters,
each a lowercase hex digit. -/
theorem claim_C5 :
    buf2hex [(0 : Fin 256)] = "0x00" ∧
    buf2hex [(1 : Fin 256), (255 : Fin 256)] = "0x01ff" ∧
    (∀ b : ByteBuffer, (buf2hex b).data.take 2 = ['0', 'x']) ∧
    (∀ x : Fin 256, (byteToHex x.val).data.length = 2 ∧
      ∀ c ∈ (byteToHex x.val).data, isLowerHexDigit c = true) :=
  ⟨by decide, by decide, fun _ => rfl, by decide⟩

/-! ### JSON values and JSON.stringify -/

/-- A JSON value, as produced by the object literals in api.ts and consumed
from parsed response bodies. -/
inductive Json where
  | null
  | bool (b : Bool)
  | num (n : Int)
  | str (s : String)
  | arr (elems : List Json)
  | obj (fields : List (String × Json))

/-- JSON string escaping for the characters that can occur in this client:
quote, backslash and the common control characters.  Other control
characters (escaped as unicode sequences by JSON.stringify) never occur in
the bodies this client builds and are left as-is. -/
def jsonEscapeChar (c : Char) : List Char :=
  if c = '"' then ['\\', '"']
  else if c = '\\' then ['\\', '\\']
  else if c = '\n' then ['\\', 'n']
  else if c = '\r' then ['\\', 'r']
  else if c = '\t' then ['\\', 't']
  else [c]

/-- Escape every character of a string for JSON output. -/
def jsonEscape (s : String) : String :=
  String.mk (s.data.map jsonEscapeChar).flatten

mutual

/-- JSON.stringify on the JSON value model: objects keep the insertion order
of their fields, exactly as V8 serializes the object literals in api.ts. -/
def Json.stringify : Json → String
  | .null => "null"
  | .bool true => "true"
  | .bool false => "false"
  | .num n => toString n
  | .str s => "\"" ++ jsonEscape s ++ "\""
  | .arr xs => "[" ++ stringifyElems xs ++ "]"
  | .obj fs => "\x7b" ++ stringifyFields fs ++ "\x7d"

/-- Comma-separated serialization of the elements of a JSON array. -/
def stringifyElems : List Json → String
  | [] => ""
  | [x] => Json.stringify x
  | x :: xs => Json.stringify x ++ "," ++ stringifyElems xs

/-- Comma-separated serialization of the fields of a JSON object. -/
def stringifyFields : List (String × Json) → String
  | [] => ""
  | [(k, v)] => "\"" ++ jsonEscape k ++ "\":" ++ Json.stringify v
  | (k, v) :: fs =>
    "\"" ++ jsonEscape k ++ "\":" ++ Json.stringify v ++ "," ++ stringifyFields fs

end

/-- Field access json[key] on a parsed JSON value: some value when json is
an object with that field, none (JS undefined) otherwise. -/
def Json.getField (j : Json) (key : String) : Option Json :=
  match j with
  | .obj fields => fields.lookup key
  | _ => none

/-! ### Client configuration and construction (api.ts:96-132) -/

/-- The RocksideNetwork type (api.ts:3): the pair [3, "ropsten"] or the
pair [1, "mainnet"]. -/
inductive RocksideNetwork where
  | ropsten
  | mainnet
deriving DecidableEq

/-- The chain id, element 0 of the network pair. -/
def RocksideNetwork.chainId : RocksideNetwork → Nat
  | .ropsten => 3
  | .mainnet => 1

/-- The network name, element 1 of the network pair: network[1] in the
route templates of api.ts. -/
def RocksideNetwork.name : RocksideNetwork → String
  | .ropsten => "ropsten"
  | .mainnet => "mainnet"

/-- RocksideApiOpts (api.ts:5-10): token and apikey are optional fields. -/
structure RocksideApiOpts where
  baseUrl : String
  token : Option String
  apikey : Option String
  network : RocksideNetwork
deriving DecidableEq

/-- JS truthiness of an optional string: undefined and the empty string are
falsy, every other string is truthy.  This is the test performed by
if (opts.apikey) and friends in api.ts:102, 116, 120. -/
def truthy : Option String → Bool
  | none => false
  | some s => !(s == "")

/-- JS string coercion of an optional string, as in "Bearer " + opts.token
(api.ts:108): undefined coerces to the string "undefined". -/
def jsString : Option String → String
  | some s => s
  | none => "undefined"

/-- Embeds generateHeaders (api.ts:100-112): the apikey header when the
apikey is truthy, otherwise the bearer Authorization header built from the
token. -/
def generateHeaders (opts : RocksideApiOpts) : List (String × String) :=
  if truthy opts.apikey then
    [("apikey", jsString opts.apikey)]
  else
    [("Authorization", "Bearer " ++ jsString opts.token)]

/-- Embeds authenticationChecks (api.ts:114-124): throws when both
credentials are truthy, throws when neither is, returns normally
otherwise.  The thrown Error is modelled as the error message. -/
def authenticationChecks (opts : RocksideApiOpts) : Except String Unit :=
  if truthy opts.apikey && truthy opts.token then
    .error "Both access token and api key provided. Only one needed."
  else if !truthy opts.apikey && !truthy opts.token then
    .error "No authentication method provided: define apikey or token."
  else .ok ()

/-- The constructed client: the options and the derived header set
(api.ts:96-98). -/
structure RocksideApi where
  opts : RocksideApiOpts
  headers : List (String × String)
deriving DecidableEq

/-- Embeds the constructor (api.ts:126-132): run the authentication checks
(their Error propagates), then store the generated headers and the
options.  This is a pure function of the options; no request is made. -/
def RocksideApi.create (opts : RocksideApiOpts) : Except String RocksideApi :=
  match authenticationChecks opts with
  | .error e => .error e
  | .ok () => .ok ⟨opts, generateHeaders opts⟩

/-! ### The shared request builder send (api.ts:139-146) -/

/-- The outgoing HTTP request handed to fetch: url, verb, optional body
text and headers. -/
structure HttpRequest where
  url : String
  method : String
  body : Option String
  headers : List (String × String)
deriving DecidableEq

/-- Embeds send (api.ts:139-146): the url is baseUrl followed by the
route, and the fetch body is the ternary !!body ? JSON.stringify(body) :
null.  Callers pass either null (modelled none) or an object literal
(modelled some json); every JS object, the empty object included, is
truthy. -/
def RocksideApi.send (api : RocksideApi) (route method : String)
    (body : Option Json) : HttpRequest :=
  { url := api.opts.baseUrl ++ route
    method := method
    body := match body with
      | some j => some (Json.stringify j)
      | none => none
    headers := api.headers }

/-! ### Responses and error extraction (api.ts:134-137) -/

/-- An HTTP response as the client observes it: the status code and the
result of resp.json(), which either yields a parsed JSON body or fails. -/
structure HttpResponse where
  status : Nat
  json : Except String Json

/-- A failure raised while handling a response. -/
inductive ApiFailure where
  | parseFailure (msg : String)
  | serverError (errField : Option Json)

/-- Embeds extractError (api.ts:134-137): await resp.json() first (a parse
failure propagates), then throw an Error whose message is the error field
of the parsed body. -/
def extractError (resp : HttpResponse) : ApiFailure :=
  match resp.json with
  | .error e => .parseFailure e
  | .ok j => .serverError (j.getField "error")

/-! ### The operations the claims mention -/

/-- The request built by createEOA (api.ts:186-198): a POST with the empty
object literal as body. -/
def RocksideApi.createEOARequest (api : RocksideApi) : HttpRequest :=
  api.send "/ethereum/eoa" "POST" (some (Json.obj []))

/-- Embeds getRpcUrl (api.ts:359-361): pure string formatting from the
stored options. -/
def RocksideApi.getRpcUrl (api : RocksideApi) : String :=
  api.opts.baseUrl ++ "/ethereum/" ++ api.opts.network.name ++ "/jsonrpc"

/-- ExecuteTransaction (api.ts:56-65).  The source fields named from and to
are Lean keywords, rendered fromAddr and toAddr. -/
structure ExecuteTransaction where
  relayer : String
  fromAddr : String
  toAddr : String
  value : Nat
  data : ByteBuffer
  gas : Nat
  gasPrice : Nat
  signature : String

/-- The body object built by relayTransaction (api.ts:325-332): the value
field is the template literal 0x followed by tx.value.toString(16), the
data field is buf2hex of the binary payload.  gas and gasPrice are not
sent. -/
def relayTransactionBody (tx : ExecuteTransaction) : Json :=
  .obj [("relayer", .str tx.relayer),
        ("from", .str tx.fromAddr),
        ("to", .str tx.toAddr),
        ("value", .str ("0x" ++ toString16 tx.value)),
        ("data", .str (buf2hex tx.data)),
        ("signature", .str tx.signature)]

/-- The request built by relayTransaction (api.ts:323-332). -/
def RocksideApi.relayTransactionRequest (api : RocksideApi) (identity : String)
    (tx : ExecuteTransaction) : HttpRequest :=
  api.send ("/ethereum/" ++ api.opts.network.name ++ "/contracts/relayableidentity/"
    ++ identity ++ "/relayExecute") "POST" (some (relayTransactionBody tx))

/-- EncryptedAccount (api.ts:67-74). -/
structure EncryptedAccount where
  username : String
  iterations : Nat
  passwordHash : ByteBuffer
  passwordDerivedKeyHash : ByteBuffer
  encryptedEncryptionKey : ByteBuffer
  encryptedEncryptionKeyIV : ByteBuffer

/-- EncryptedWallet (api.ts:76-79). -/
structure EncryptedWallet where
  encryptedMnemonic : ByteBuffer
  encryptedMnemonicIV : ByteBuffer

/-- The body object built by createEncryptedAccount (api.ts:232-239). -/
def createEncryptedAccountBody (account : EncryptedAccount) : Json :=
  .obj [("username", .str account.username),
        ("password_hash", .str (buf2hex account.passwordHash)),
        ("encrypted_encryption_key", .str (buf2hex account.encryptedEncryptionKey)),
        ("encrypted_encryption_key_iv", .str (buf2hex account.encryptedEncryptionKeyIV)),
        ("iterations", .num account.iterations),
        ("password_derived_key_hash", .str (buf2hex account.passwordDerivedKeyHash))]

/-- The request built by createEncryptedAccount (api.ts:231-239): a PUT to
/encryptedaccounts. -/
def RocksideApi.createEncryptedAccountRequest (api : RocksideApi)
    (account : EncryptedAccount) : HttpRequest :=
  api.send "/encryptedaccounts" "PUT" (some (createEncryptedAccountBody account))

/-- Embeds the response handling of createEncryptedAccount (api.ts:241-243):
if (resp.status != 201 && resp.status != 409) throw await
this.extractError(resp); otherwise the method returns normally. -/
def createEncryptedAccountResult (resp : HttpResponse) : Except ApiFailure Unit :=
  if resp.status ≠ 201 ∧ resp.status ≠ 409 then .error (extractError resp)
  else .ok ()

/-- The body object built by createEncryptedWallet (api.ts:264-269): note
the field name encrypted_mnemonic_iv. -/
def createEncryptedWalletBody (account : EncryptedAccount)
    (wallet : EncryptedWallet) : Json :=
  .obj [("username", .str account.username),
        ("password_hash", .str (buf2hex account.passwordHash)),
        ("encrypted_mnemonic", .str (buf2hex wallet.encryptedMnemonic)),
        ("encrypted_mnemonic_iv", .str (buf2hex wallet.encryptedMnemonicIV))]

/-- Embeds the per-record mapping of getEncryptedWallets (api.ts:286-289):
each record of the response array is decoded by reading the fields
encrypted_mnemonic and mnemonic_iv and running each through hex2buf.  A
missing or non-string field (hex2buf applied to undefined is a TypeError
in JS) or a failing hex2buf is modelled as none. -/
def decodeWalletRecord (j : Json) : Option EncryptedWallet :=
  match j.getField "encrypted_mnemonic", j.getField "mnemonic_iv" with
  | some (.str m), some (.str iv) =>
    match hex2buf m, hex2buf iv with
    | some em, some eiv => some ⟨em, eiv⟩
    | _, _ => none
  | _, _ => none

/-! ### Claims about construction, headers and requests -/

/-- Claim C2: constructing with both apikey and token supplied throws the
both-credentials configuration error, constructing with neither supplied
throws the no-authentication configuration error, and constructing with
exactly one of them supplied succeeds.  The constructor is a pure function
of the options: no request is involved. -/
theorem claim_C2 (base : String) (net : RocksideNetwork) (k t : String)
    (hk : k ≠ "") (ht : t ≠ "") :
    RocksideApi.create ⟨base, some t, some k, net⟩ =
      .error "Both access token and api key provided. Only one needed." ∧
    RocksideApi.create ⟨base, none, none, net⟩ =
      .error "No authentication method provided: define apikey or token." ∧
    (RocksideApi.create ⟨base, none, some k, net⟩).isOk = true ∧
    (RocksideApi.create ⟨base, some t, none, net⟩).isOk = true := by
  have hk2 : (k == "") = false := beq_eq_false_iff_ne.mpr hk
  have ht2 : (t == "") = false := beq_eq_false_iff_ne.mpr ht
  refine ⟨?_, rfl, ?_, ?_⟩ <;>
    simp [RocksideApi.create, authenticationChecks, generateHeaders, truthy,
      hk2, ht2, Except.isOk, Except.toBool]

theorem claim_C2_witness :
    ("k" : String) ≠ "" ∧ ("t" : String) ≠ "" ∧
    (RocksideApi.create ⟨"https://x", some "t", some "k", .mainnet⟩ =
      .error "Both access token and api key provided. Only one needed." ∧
    RocksideApi.create ⟨"https://x", none, none, .mainnet⟩ =
      .error "No authentication method provided: define apikey or token." ∧
    (RocksideApi.create ⟨"https://x", none, some "k", .mainnet⟩).isOk = true ∧
    (RocksideApi.create ⟨"https://x", some "t", none, .mainnet⟩).isOk = true) :=
  ⟨by decide, by decide,
    claim_C2 "https://x" RocksideNetwork.mainnet "k" "t" (by decide) (by decide)⟩

/-- Claim C3: a client constructed from an apikey k carries exactly the
header set with the single entry apikey: k; a client constructed from a
token t carries exactly the single entry Authorization: Bearer t; and
every request built by send carries exactly the header set of the client
that sends it. -/
theorem claim_C3 (base : String) (net : RocksideNetwork) (k t : String)
    (hk : k ≠ "") (ht : t ≠ "") :
    (RocksideApi.create ⟨base, none, some k, net⟩).map RocksideApi.headers =
      .ok [("apikey", k)] ∧
    (RocksideApi.create ⟨base, some t, none, net⟩).map RocksideApi.headers =
      .ok [("Authorization", "Bearer " ++ t)] ∧
    (∀ (api : RocksideApi) (route method : String) (body : Option Json),
      (api.send route method body).headers = api.headers) := by
  have hk2 : (k == "") = false := beq_eq_false_iff_ne.mpr hk
  have ht2 : (t == "") = false := beq_eq_false_iff_ne.mpr ht
  refine ⟨?_, ?_, fun _ _ _ _ => rfl⟩ <;>
    simp [RocksideApi.create, authenticationChecks, generateHeaders, truthy,
      jsString, hk2, ht2, Except.map]

theorem claim_C3_witness :
    ("k" : String) ≠ "" ∧ ("t" : String) ≠ "" ∧
    ((RocksideApi.create ⟨"https://x", none, some "k", .mainnet⟩).map
        RocksideApi.headers = .ok [("apikey", "k")] ∧
    (RocksideApi.create ⟨"https://x", some "t", none, .mainnet⟩).map
        RocksideApi.headers = .ok [("Authorization", "Bearer " ++ "t")] ∧
    (∀ (api : RocksideApi) (route method : String) (body : Option Json),
      (api.send route method body).headers = api.headers)) :=
  ⟨by decide, by decide,
    claim_C3 "https://x" RocksideNetwork.mainnet "k" "t" (by decide) (by decide)⟩

/-- Claim C4: a response to createEncryptedAccount with status 201 or 409
is success and raises nothing; any other status raises the failure
extracted from the body: the error field of the parsed JSON body, or the
parse failure itself when the body does not parse.  Checked at status 409
(no error), at status 500 with body containing error: db down (message db
down), and at status 500 with an unparsable body. -/
theorem claim_C4 (resp : HttpResponse) :
    createEncryptedAccountResult resp =
      (if resp.status = 201 ∨ resp.status = 409 then .ok ()
       else .error (match resp.json with
         | .error e => ApiFailure.parseFailure e
         | .ok j => ApiFailure.serverError (j.getField "error"))) ∧
    createEncryptedAccountResult ⟨409, .ok (.obj [])⟩ = .ok () ∧
    createEncryptedAccountResult ⟨500, .ok (.obj [("error", .str "db down")])⟩ =
      .error (.serverError (some (.str "db down"))) ∧
    createEncryptedAccountResult ⟨500, .error "unexpected end of JSON input"⟩ =
      .error (.parseFailure "unexpected end of JSON input") := by
  refine ⟨?_, rfl, rfl, rfl⟩
  by_cases h1 : resp.status = 201 <;> by_cases h2 : resp.status = 409 <;>
    cases hj : resp.json <;>
      simp [createEncryptedAccountResult, extractError, h1, h2, hj]

/-- Claim C6: getRpcUrl is a pure function of the stored configuration,
returning baseUrl, then /ethereum/, then the network name, then /jsonrpc;
in particular the client built on baseUrl https://x and the mainnet
network returns https://x/ethereum/mainnet/jsonrpc. -/
theorem claim_C6 :
    (∀ api : RocksideApi, api.getRpcUrl =
      api.opts.baseUrl ++ "/ethereum/" ++ api.opts.network.name ++ "/jsonrpc") ∧
    (RocksideApi.create ⟨"https://x", none, some "k", .mainnet⟩).map
      RocksideApi.getRpcUrl = .ok "https://x/ethereum/mainnet/jsonrpc" :=
  ⟨fun _ => rfl, rfl⟩

/-- Claim C7: the outgoing body of relayTransaction carries the value field
as the string 0x followed by the base-16 rendering of tx.value (255 gives
exactly the string 0xff) and the data field as buf2hex of the binary
payload; the request built by relayTransaction sends exactly the JSON
serialization of that body. -/
theorem claim_C7 :
    (∀ tx : ExecuteTransaction,
      (relayTransactionBody tx).getField "value" =
        some (.str ("0x" ++ toString16 tx.value)) ∧
      (relayTransactionBody tx).getField "data" =
        some (.str (buf2hex tx.data))) ∧
    toString16 255 = "ff" ∧
    (relayTransactionBody ⟨"r", "f", "t", 255, [], 21000, 1, "sig"⟩).getField "value" =
      some (.str "0xff") ∧
    (∀ (api : RocksideApi) (identity : String) (tx : ExecuteTransaction),
      (api.relayTransactionRequest identity tx).body =
        some (Json.stringify (relayTransactionBody tx))) :=
  ⟨fun _ => ⟨rfl, rfl⟩, rfl, rfl, fun _ _ _ => rfl⟩

/-- Claim C8 counterexample: the claim asserts that operations with an
empty body object, such as createEOA with its empty object literal, send
no body.  On the code, send builds the fetch body with the ternary
!!body ? JSON.stringify(body) : null, and the empty object is truthy in
JS, so the createEOA request of the client built on https://x with apikey
k carries the serialized body consisting of the two brace characters,
which is not the absent body. -/
theorem claim_C8_cex :
    (RocksideApi.create ⟨"https://x", none, some "k", .mainnet⟩).map
      (fun api => api.createEOARequest.body) = .ok (some "\x7b\x7d") ∧
    (some "\x7b\x7d" : Option String) ≠ none :=
  ⟨rfl, by decide⟩

/-- Claim C8 (amended): for every operation and body passed to the shared
request builder send, the request URL is baseUrl followed by the route,
and the request carries the JSON serialization of the body whenever a
body object is passed, the empty object included, sending no body only
when null is passed (as the GET operations do); in particular createEOA
serializes its empty object literal and sends the two-character body of an
empty JSON object. -/
theorem claim_C8 :
    (∀ (api : RocksideApi) (route method : String) (body : Option Json),
      (api.send route method body).url = api.opts.baseUrl ++ route ∧
      (api.send route method body).body = body.map Json.stringify) ∧
    (∀ api : RocksideApi,
      api.createEOARequest.url = api.opts.baseUrl ++ "/ethereum/eoa" ∧
      api.createEOARequest.body = some "\x7b\x7d") :=
  ⟨fun api route method body =>
    ⟨rfl, by cases body <;> rfl⟩,
   fun _ => ⟨rfl, rfl⟩⟩

/-- Claim C9: createEncryptedWallet transmits the mnemonic IV under the
JSON field name encrypted_mnemonic_iv, while the record decoding of
getEncryptedWallets reads the mnemonic IV from the different field name
mnemonic_iv; consequently a stored record echoed back under the same field
names it was stored with has no mnemonic_iv field and fails to decode, so
the encryptedMnemonicIV of a wallet does not round-trip through
store-then-fetch. -/
theorem claim_C9 (account : EncryptedAccount) (wallet : EncryptedWallet) :
    (createEncryptedWalletBody account wallet).getField "encrypted_mnemonic_iv" =
      some (.str (buf2hex wallet.encryptedMnemonicIV)) ∧
    (createEncryptedWalletBody account wallet).getField "mnemonic_iv" = none ∧
    decodeWalletRecord (createEncryptedWalletBody account wallet) = none := by
  refine ⟨rfl, rfl, ?_⟩
  simp [decodeWalletRecord, Json.getField, createEncryptedWalletBody, List.lookup]

/-- Claim C10: credential presence is decided by JS truthiness, not field
presence: constructing with the empty-string apikey together with a
non-empty token succeeds and yields the bearer header set, while
constructing with the empty-string apikey and no token throws the
no-authentication configuration error even though an apikey field was
supplied. -/
theorem claim_C10 (base : String) (net : RocksideNetwork) (t : String)
    (ht : t ≠ "") :
    (RocksideApi.create ⟨base, some t, some "", net⟩).map RocksideApi.headers =
      .ok [("Authorization", "Bearer " ++ t)] ∧
    RocksideApi.create ⟨base, none, some "", net⟩ =
      .error "No authentication method provided: define apikey or token." := by
  have ht2 : (t == "") = false := beq_eq_false_iff_ne.mpr ht
  refine ⟨?_, rfl⟩
  simp [RocksideApi.create, authenticationChecks, generateHeaders, truthy,
    jsString, ht2, Except.map]

theorem claim_C10_witness :
    ("t" : String) ≠ "" ∧
    ((RocksideApi.create ⟨"https://x", some "t", some "", .mainnet⟩).map
        RocksideApi.headers = .ok [("Authorization", "Bearer " ++ "t")] ∧
    RocksideApi.create ⟨"https://x", none, some "", .mainnet⟩ =
      .error "No authentication method provided: define apikey or token.") :=
  ⟨by decide, claim_C10 "https://x" RocksideNetwork.mainnet "t" (by decide)⟩

end Rockside
